import Mathlib

/-!
Extra camera parameter keys (`include/camera/CameraParametersExtra.h`)

The header consists of two object-like macros.  A macro is a sequence of
preprocessing tokens, so each macro is embedded as its replacement list, token
by token.  The declarations a macro expands to are obtained by reading that
token sequence with the grammar of simple array declarations.

Line splicing deletes a backslash only when a new-line follows it immediately.
The first macro ends with such a splice and an empty line.  The header itself
ends right after the backslash of its last line, with no new-line behind it, so
that backslash is not spliced away: it stays in the replacement list of the
second macro as a token of its own.
-/

namespace CameraParametersExtra

/-- Preprocessing tokens occurring in the header: identifiers (keywords are
identifiers at this stage), punctuators and string literals (the text between
the quotes).  A backslash that is not part of a line splice is a token of its
own and is written `punct "\\"`. -/
inductive Token where
  | ident (s : String)
  | punct (s : String)
  | strLit (s : String)
  deriving DecidableEq, Repr

open Token

/-- Replacement list of `#define CAMERA_PARAMETERS_EXTRA_C` (header lines 17-23):
five spliced lines of ten tokens each; the last continuation line is empty and
adds no token. -/
def CAMERA_PARAMETERS_EXTRA_C : List Token :=
  [ ident "const", ident "char", ident "CameraParameters", punct "::",
      ident "KEY_QC_AE_BRACKET_HDR", punct "[", punct "]", punct "=",
      strLit "ae-bracket-hdr", punct ";",
    ident "const", ident "char", ident "CameraParameters", punct "::",
      ident "KEY_QC_CAPTURE_BURST_EXPOSURE", punct "[", punct "]", punct "=",
      strLit "capture-burst-exposures", punct ";",
    ident "const", ident "char", ident "CameraParameters", punct "::",
      ident "KEY_QC_MORPHO_HDR", punct "[", punct "]", punct "=",
      strLit "morpho-hdr", punct ";",
    ident "const", ident "char", ident "CameraParameters", punct "::",
      ident "KEY_QC_TOUCH_AF_AEC", punct "[", punct "]", punct "=",
      strLit "touch-af-aec", punct ";",
    ident "const", ident "char", ident "CameraParameters", punct "::",
      ident "KEY_QC_ZSL", punct "[", punct "]", punct "=",
      strLit "zsl", punct ";" ]

/-- Replacement list of `#define CAMERA_PARAMETERS_EXTRA_H` (header lines 25-31):
five spliced lines of seven tokens each, then line 31, which is four blanks and
a backslash.  The file ends with that backslash, no new-line follows it, so it
is not a line splice and remains as the last, 36th token. -/
def CAMERA_PARAMETERS_EXTRA_H : List Token :=
  [ ident "static", ident "const", ident "char",
      ident "KEY_QC_AE_BRACKET_HDR", punct "[", punct "]", punct ";",
    ident "static", ident "const", ident "char",
      ident "KEY_QC_CAPTURE_BURST_EXPOSURE", punct "[", punct "]", punct ";",
    ident "static", ident "const", ident "char",
      ident "KEY_QC_MORPHO_HDR", punct "[", punct "]", punct ";",
    ident "static", ident "const", ident "char",
      ident "KEY_QC_TOUCH_AF_AEC", punct "[", punct "]", punct ";",
    ident "static", ident "const", ident "char",
      ident "KEY_QC_ZSL", punct "[", punct "]", punct ";",
    punct "\\" ]

/-- Decl-specifiers of a declaration: storage class, cv-qualifier and the
element type named by the type specifier. -/
structure Specifiers where
  isStatic : Bool
  isConst : Bool
  elemType : Option String
  deriving DecidableEq, Repr

/-- One array declaration `[static] [const] T [Class::]name[] [= "literal"];`. -/
structure Decl where
  /-- the `static` storage-class specifier is present -/
  isStatic : Bool
  /-- the `const` qualifier is present on the element type -/
  isConst : Bool
  /-- the element type -/
  elemType : String
  /-- the class named by a nested-name-specifier `Class::`, if any -/
  qualifier : Option String
  /-- the declared member name -/
  name : String
  /-- the array bound; `none` for the declarator `[]` -/
  bound : Option Nat
  /-- the string-literal initializer, if any -/
  init : Option String
  deriving DecidableEq, Repr

/-- Read the leading decl-specifiers `static`, `const`, `char`; stops at the
first token that is none of them. -/
def parseSpecifiers : List Token → Specifiers → Specifiers × List Token
  | ident "static" :: ts, sp => parseSpecifiers ts { sp with isStatic := true }
  | ident "const" :: ts, sp => parseSpecifiers ts { sp with isConst := true }
  | ident "char" :: ts, sp => parseSpecifiers ts { sp with elemType := some "char" }
  | ts, sp => (sp, ts)

/-- Read the declarator-id: `Class :: name` or a plain `name`. -/
def parseDeclaratorId : List Token → Option ((Option String × String) × List Token)
  | ident q :: punct "::" :: ident n :: ts => some ((some q, n), ts)
  | ident n :: ts => some ((none, n), ts)
  | _ => none

/-- Read the rest of an array declaration after the declarator-id: `[]`
followed by an optional `= "literal"`, with nothing left over. -/
def parseArrayAndInit : List Token → Option (Option String)
  | [punct "[", punct "]"] => some none
  | [punct "[", punct "]", punct "=", strLit s] => some (some s)
  | _ => none

/-- Read the tokens of one declaration (without its closing `;`). -/
def parseDecl (ts : List Token) : Option Decl :=
  match parseSpecifiers ts ⟨false, false, none⟩ with
  | (⟨st, cq, some ty⟩, rest) =>
    match parseDeclaratorId rest with
    | some ((q, n), rest2) =>
      match parseArrayAndInit rest2 with
      | some i => some ⟨st, cq, ty, q, n, none, i⟩
      | none => none
    | none => none
  | _ => none

/-- Cut a token sequence into the declarations it consists of, each ended by
a `;`; `none` when tokens remain after the last `;`. -/
def splitDecls : List Token → List Token → Option (List (List Token))
  | [], [] => some []
  | [], _ :: _ => none
  | punct ";" :: ts, acc => (splitDecls ts []).map (fun r => acc.reverse :: r)
  | t :: ts, acc => splitDecls ts (t :: acc)

/-- The declarations a macro expands to; `none` when the replacement list is
not a sequence of array declarations. -/
def expand (m : List Token) : Option (List Decl) :=
  (splitDecls m []).bind (fun ds => ds.mapM parseDecl)

/-- The part of a token sequence that can belong to declarations: everything
up to and including its last `;`.  Tokens after the last `;` are cut off. -/
def declarationTokens : List Token → List Token
  | [] => []
  | t :: ts => if punct ";" ∈ t :: ts then t :: declarationTokens ts else []

/-- The identifiers of a token sequence, in order. -/
def identifiers : List Token → List String
  | [] => []
  | ident s :: ts => s :: identifiers ts
  | _ :: ts => identifiers ts

/-- The identifiers the grammar above reads as decl-specifiers. -/
def specifierWords : List String :=
  ["static", "const", "char"]

/-- The member declarations written in `CAMERA_PARAMETERS_EXTRA_H`: the
declarations its replacement list holds up to its last `;`. -/
def declaredMembers : List Decl :=
  (expand (declarationTokens CAMERA_PARAMETERS_EXTRA_H)).getD []

/-- The members defined at namespace scope by `CAMERA_PARAMETERS_EXTRA_C`. -/
def definedMembers : List Decl :=
  (expand CAMERA_PARAMETERS_EXTRA_C).getD []

/-- The constants a list of declarations defines: member name paired with the
string literal that initialises it. -/
def definedConstants (ds : List Decl) : List (String × String) :=
  ds.filterMap (fun d => d.init.map (fun v => (d.name, v)))

/-- Code units a string literal contributes to a `char` array: the UTF-8
encoding of its characters. -/
def literalBytes (lit : String) : List Nat :=
  (lit.toList.map (fun c => (String.utf8EncodeChar c).map UInt8.toNat)).flatten

/-- The array object `const char x[] = "lit"` creates: the code units of the
literal followed by the terminating zero. -/
def arrayValue (lit : String) : List Nat :=
  literalBytes lit ++ [0]

/-- The C function `strlen`: the number of bytes before the first zero byte. -/
def strlen : List Nat → Nat
  | [] => 0
  | 0 :: _ => 0
  | _ :: bs => strlen bs + 1

/-- The key names listed in the data model of the specification, in its order. -/
def specKeyNames : List String :=
  ["ae-bracket-hdr", "capture-burst-exposures", "morpho-hdr", "touch-af-aec", "zsl"]

/-- Remove `pre` from the front of `l` when `l` starts with it. -/
def removeLeading (pre l : List Char) : List Char :=
  if pre.isPrefixOf l then l.drop pre.length else l

/-- The key derived from a member name: the prefix `KEY_QC_` removed, every
letter lowercased and every underscore replaced by a hyphen. -/
def derive (name : String) : String :=
  String.mk ((removeLeading "KEY_QC_".toList name.toList).map
    (fun c => if c = '_' then '-' else c.toLower))

/-- Assignment, increment and decrement operators of C++. -/
def writeOperators : List String :=
  ["=", "+=", "-=", "*=", "/=", "%=", "^=", "&=", "|=", "<<=", ">>=", "++", "--"]

/-! ## What the two macros expand to -/

theorem extra_H_tokens_eq :
    CAMERA_PARAMETERS_EXTRA_H
      = declarationTokens CAMERA_PARAMETERS_EXTRA_H ++ [punct "\\"] := by
  decide

theorem expand_H_declarations_eq :
    expand (declarationTokens CAMERA_PARAMETERS_EXTRA_H) = some declaredMembers := by
  decide

theorem expand_C_eq : expand CAMERA_PARAMETERS_EXTRA_C = some definedMembers := by
  decide

theorem definedConstants_eq :
    definedConstants definedMembers =
      [("KEY_QC_AE_BRACKET_HDR", "ae-bracket-hdr"),
       ("KEY_QC_CAPTURE_BURST_EXPOSURE", "capture-burst-exposures"),
       ("KEY_QC_MORPHO_HDR", "morpho-hdr"),
       ("KEY_QC_TOUCH_AF_AEC", "touch-af-aec"),
       ("KEY_QC_ZSL", "zsl")] := by
  decide

/-! ## The claims -/

/-- C1: expanding `CAMERA_PARAMETERS_EXTRA_C` succeeds and defines exactly five
constants, each member name initialised with exactly the listed literal, and
the defined values, in order, are the five key names of the specification. -/
theorem extra_c_defines_five_constants :
    expand CAMERA_PARAMETERS_EXTRA_C = some definedMembers
    ∧ definedMembers.map (fun d => (d.name, d.init)) =
        [("KEY_QC_AE_BRACKET_HDR", some "ae-bracket-hdr"),
         ("KEY_QC_CAPTURE_BURST_EXPOSURE", some "capture-burst-exposures"),
         ("KEY_QC_MORPHO_HDR", some "morpho-hdr"),
         ("KEY_QC_TOUCH_AF_AEC", some "touch-af-aec"),
         ("KEY_QC_ZSL", some "zsl")]
    ∧ definedMembers.length = 5
    ∧ (definedConstants definedMembers).map Prod.snd = specKeyNames := by
  refine ⟨expand_C_eq, ?_, ?_, ?_⟩ <;> decide

/-- C3: the replacement list of `CAMERA_PARAMETERS_EXTRA_H` is five declarations
followed by one stray backslash, that of `CAMERA_PARAMETERS_EXTRA_C` is five
definitions and nothing else; each of these ten carries `const` on its `char`
element type.  No token of `CAMERA_PARAMETERS_EXTRA_H` is an assignment,
increment or decrement operator, and the only such tokens of
`CAMERA_PARAMETERS_EXTRA_C` are the `=` of its five initializers: the header
holds nothing that writes to a constant. -/
theorem constants_are_const :
    CAMERA_PARAMETERS_EXTRA_H
        = declarationTokens CAMERA_PARAMETERS_EXTRA_H ++ [punct "\\"]
    ∧ expand (declarationTokens CAMERA_PARAMETERS_EXTRA_H) = some declaredMembers
    ∧ expand CAMERA_PARAMETERS_EXTRA_C = some definedMembers
    ∧ declaredMembers.map (fun d => (d.name, d.isConst, d.elemType)) =
        [("KEY_QC_AE_BRACKET_HDR", true, "char"),
         ("KEY_QC_CAPTURE_BURST_EXPOSURE", true, "char"),
         ("KEY_QC_MORPHO_HDR", true, "char"),
         ("KEY_QC_TOUCH_AF_AEC", true, "char"),
         ("KEY_QC_ZSL", true, "char")]
    ∧ definedMembers.map (fun d => (d.name, d.isConst, d.elemType)) =
        [("KEY_QC_AE_BRACKET_HDR", true, "char"),
         ("KEY_QC_CAPTURE_BURST_EXPOSURE", true, "char"),
         ("KEY_QC_MORPHO_HDR", true, "char"),
         ("KEY_QC_TOUCH_AF_AEC", true, "char"),
         ("KEY_QC_ZSL", true, "char")]
    ∧ (∀ d ∈ declaredMembers ++ definedMembers, d.isConst = true ∧ d.elemType = "char")
    ∧ (identifiers CAMERA_PARAMETERS_EXTRA_H).count "char" = 5
    ∧ (identifiers CAMERA_PARAMETERS_EXTRA_H).count "const" = 5
    ∧ (identifiers CAMERA_PARAMETERS_EXTRA_C).count "char" = 5
    ∧ (identifiers CAMERA_PARAMETERS_EXTRA_C).count "const" = 5
    ∧ (∀ t ∈ CAMERA_PARAMETERS_EXTRA_H, ∀ op ∈ writeOperators, t ≠ punct op)
    ∧ (CAMERA_PARAMETERS_EXTRA_C.filter (fun t => writeOperators.any (fun op => t = punct op))).length
        = (definedMembers.filter (fun d => d.init.isSome)).length := by
  refine ⟨extra_H_tokens_eq, expand_H_declarations_eq, expand_C_eq,
    ?_, ?_, ?_, ?_, ?_, ?_, ?_, ?_, ?_⟩ <;> decide

/-- C3 at the declaration of `KEY_QC_MORPHO_HDR` written in
`CAMERA_PARAMETERS_EXTRA_H`: it is `const char`. -/
theorem constants_are_const_witness :
    (Decl.mk true true "char" none "KEY_QC_MORPHO_HDR" none none).isConst = true
    ∧ (Decl.mk true true "char" none "KEY_QC_MORPHO_HDR" none none).elemType = "char" :=
  constants_are_const.2.2.2.2.2.1
    ⟨true, true, "char", none, "KEY_QC_MORPHO_HDR", none, none⟩ (by decide)

/-- C4: the array object of each constant is the bytes of its literal followed
by one zero byte, zero occurs nowhere else in it, the array sizes are 15, 24,
11, 13 and 4, and `strlen` of each is its array size minus one. -/
theorem constants_are_null_terminated :
    (definedConstants definedMembers).map (fun p => (p.2, (arrayValue p.2).length)) =
        [("ae-bracket-hdr", 15), ("capture-burst-exposures", 24), ("morpho-hdr", 11),
         ("touch-af-aec", 13), ("zsl", 4)]
    ∧ (∀ p ∈ definedConstants definedMembers,
        arrayValue p.2 = p.2.toList.map Char.toNat ++ [0]
        ∧ 0 ∉ p.2.toList.map Char.toNat
        ∧ (arrayValue p.2).count 0 = 1
        ∧ (arrayValue p.2).getLast? = some 0
        ∧ strlen (arrayValue p.2) = (arrayValue p.2).length - 1) := by
  refine ⟨?_, ?_⟩ <;> decide

/-- C4 at `KEY_QC_ZSL`: the array is `z`, `s`, `l`, zero and its `strlen` is 3. -/
theorem constants_are_null_terminated_witness :
    arrayValue "zsl" = [122, 115, 108, 0] ∧ strlen (arrayValue "zsl") = 3 :=
  have h := constants_are_null_terminated.2 ("KEY_QC_ZSL", "zsl") (by decide)
  ⟨h.1, h.2.2.2.2⟩

/-- C5: two constants defined by `CAMERA_PARAMETERS_EXTRA_C` under different
member names have different string values. -/
theorem key_values_pairwise_distinct (p q : String × String)
    (hp : p ∈ definedConstants definedMembers) (hq : q ∈ definedConstants definedMembers)
    (hne : p.1 ≠ q.1) : p.2 ≠ q.2 := by
  have h : ∀ p ∈ definedConstants definedMembers, ∀ q ∈ definedConstants definedMembers,
      p.1 ≠ q.1 → p.2 ≠ q.2 := by decide
  exact h p hp q hq hne

/-- C5 at `KEY_QC_AE_BRACKET_HDR` and `KEY_QC_MORPHO_HDR`. -/
theorem key_values_pairwise_distinct_witness : "ae-bracket-hdr" ≠ "morpho-hdr" :=
  key_values_pairwise_distinct ("KEY_QC_AE_BRACKET_HDR", "ae-bracket-hdr")
    ("KEY_QC_MORPHO_HDR", "morpho-hdr") (by decide) (by decide) (by decide)

/-- C6: every key value defined by `CAMERA_PARAMETERS_EXTRA_C` is non-empty,
consists of lowercase letters `a`..`z` and hyphens only, neither starts nor
ends with a hyphen and has no two adjacent hyphens; so it contains no `=`, no
`;`, no whitespace and no uppercase letter. -/
theorem key_values_well_formed (p : String × String)
    (hp : p ∈ definedConstants definedMembers) :
    p.2.toList ≠ []
    ∧ (∀ c ∈ p.2.toList, ('a' ≤ c ∧ c ≤ 'z') ∨ c = '-')
    ∧ p.2.toList.head? ≠ some '-'
    ∧ p.2.toList.getLast? ≠ some '-'
    ∧ ¬ ['-', '-'] <:+: p.2.toList
    ∧ (∀ c ∈ p.2.toList, c ≠ '=' ∧ c ≠ ';' ∧ c.isWhitespace = false ∧ c.isUpper = false) := by
  have h : ∀ p ∈ definedConstants definedMembers,
      p.2.toList ≠ []
      ∧ (∀ c ∈ p.2.toList, ('a' ≤ c ∧ c ≤ 'z') ∨ c = '-')
      ∧ p.2.toList.head? ≠ some '-'
      ∧ p.2.toList.getLast? ≠ some '-'
      ∧ ¬ ['-', '-'] <:+: p.2.toList
      ∧ (∀ c ∈ p.2.toList, c ≠ '=' ∧ c ≠ ';' ∧ c.isWhitespace = false ∧ c.isUpper = false) := by
    decide
  exact h p hp

/-- C6 at `KEY_QC_TOUCH_AF_AEC`, whose value has two hyphens: they are not
adjacent and every character is a lowercase letter or a hyphen. -/
theorem key_values_well_formed_witness :
    (∀ c ∈ "touch-af-aec".toList, ('a' ≤ c ∧ c ≤ 'z') ∨ c = '-')
    ∧ ¬ ['-', '-'] <:+: "touch-af-aec".toList :=
  have h := key_values_well_formed ("KEY_QC_TOUCH_AF_AEC", "touch-af-aec") (by decide)
  ⟨h.2.1, h.2.2.2.2.1⟩

/-- C7: the member names written in `CAMERA_PARAMETERS_EXTRA_H` and those
defined by `CAMERA_PARAMETERS_EXTRA_C` are in both cases the five listed names
(for the first macro these are also all its identifiers other than `static`,
`const` and `char`), and every one of them begins with `KEY_QC_`; the value of
`KEY_QC_CAPTURE_BURST_EXPOSURE` is not the key derived from its name but that
key followed by the single character `s`; the value of each of the other four
members is the key derived from its name. -/
theorem values_follow_member_names :
    expand (declarationTokens CAMERA_PARAMETERS_EXTRA_H) = some declaredMembers
    ∧ expand CAMERA_PARAMETERS_EXTRA_C = some definedMembers
    ∧ declaredMembers.map Decl.name =
        ["KEY_QC_AE_BRACKET_HDR", "KEY_QC_CAPTURE_BURST_EXPOSURE", "KEY_QC_MORPHO_HDR",
         "KEY_QC_TOUCH_AF_AEC", "KEY_QC_ZSL"]
    ∧ (identifiers CAMERA_PARAMETERS_EXTRA_H).filter (fun s => s ∉ specifierWords) =
        ["KEY_QC_AE_BRACKET_HDR", "KEY_QC_CAPTURE_BURST_EXPOSURE", "KEY_QC_MORPHO_HDR",
         "KEY_QC_TOUCH_AF_AEC", "KEY_QC_ZSL"]
    ∧ definedMembers.map Decl.name =
        ["KEY_QC_AE_BRACKET_HDR", "KEY_QC_CAPTURE_BURST_EXPOSURE", "KEY_QC_MORPHO_HDR",
         "KEY_QC_TOUCH_AF_AEC", "KEY_QC_ZSL"]
    ∧ (∀ d ∈ declaredMembers ++ definedMembers, "KEY_QC_".toList <+: d.name.toList)
    ∧ (definedConstants definedMembers).map Prod.fst =
        ["KEY_QC_AE_BRACKET_HDR", "KEY_QC_CAPTURE_BURST_EXPOSURE", "KEY_QC_MORPHO_HDR",
         "KEY_QC_TOUCH_AF_AEC", "KEY_QC_ZSL"]
    ∧ (∀ p ∈ definedConstants definedMembers,
        (p.1 = "KEY_QC_CAPTURE_BURST_EXPOSURE" →
          p.2 ≠ derive p.1 ∧ p.2.toList = (derive p.1).toList ++ ['s'])
        ∧ (p.1 ≠ "KEY_QC_CAPTURE_BURST_EXPOSURE" → p.2 = derive p.1)) := by
  refine ⟨expand_H_declarations_eq, expand_C_eq, ?_, ?_, ?_, ?_, ?_, ?_⟩ <;> decide

/-- C7 at `KEY_QC_CAPTURE_BURST_EXPOSURE` (identifier singular, key plural):
its name as written in `CAMERA_PARAMETERS_EXTRA_H` begins with `KEY_QC_`, and
its value is the derived key followed by `s`. -/
theorem values_follow_member_names_witness :
    "KEY_QC_".toList <+: "KEY_QC_CAPTURE_BURST_EXPOSURE".toList
    ∧ "capture-burst-exposures" ≠ derive "KEY_QC_CAPTURE_BURST_EXPOSURE"
    ∧ "capture-burst-exposures".toList
        = (derive "KEY_QC_CAPTURE_BURST_EXPOSURE").toList ++ ['s'] :=
  ⟨values_follow_member_names.2.2.2.2.2.1
      ⟨true, true, "char", none, "KEY_QC_CAPTURE_BURST_EXPOSURE", none, none⟩ (by decide),
    (values_follow_member_names.2.2.2.2.2.2.2
      ("KEY_QC_CAPTURE_BURST_EXPOSURE", "capture-burst-exposures") (by decide)).1 rfl⟩

end CameraParametersExtra
